import Mathlib

/-!
Shallow embedding of the llm-werewolf rules core (domain/ and engine/ modules),
with theorems checking the specification's claims against it.

Machine model notes:
* Python tuples become Lean `List`s; `str` becomes `String`.
* Functions that raise `ValueError` are embedded as `Except String`-valued
  (eligibility checks) or as total functions whose callers catch the error
  (the executors, which translate `try/except ValueError` into pattern
  matching).
* `str.startswith` is embedded as code-point list isPrefixOf, and the Python
  substring test `a in b` as code-point list infix, both matching Python's
  code-point semantics.
-/

/-- Team (value_objects.Team). -/
inductive Team where
  | village
  | werewolf
deriving DecidableEq, Repr

/-- Modelled from the spec: the checked-in `value_objects.NightActionType`
defines only `DIVINE` and `ATTACK`, but the rest of the source and the
repository's own tests use a third member `GUARD`; the full three-member
enum of the spec ("divine/attack/guard") is modelled here. -/
inductive NightActionType where
  | divine
  | attack
  | guard
deriving DecidableEq, Repr

/-- Modelled from the spec: the checked-in `value_objects.Role` defines only
`VILLAGER`, `SEER` and `WEREWOLF`, but every caller (services.py,
game_logic.py, the engines) and the repository's tests use the full
six-role table; the spec's six roles are modelled here. -/
inductive Role where
  | villager
  | seer
  | werewolf
  | knight
  | medium
  | madman
deriving DecidableEq, Repr

/-- Modelled from the spec: `Role.team` — two roles map to the Werewolf team
(wolf, madman); all others to Village. -/
def Role.team : Role → Team
  | .werewolf => .werewolf
  | .madman => .werewolf
  | _ => .village

/-- Modelled from the spec: `Role.night_action_type` — divine to the seer,
attack to the wolf, guard to the knight, none otherwise. -/
def Role.night_action_type : Role → Option NightActionType
  | .seer => some .divine
  | .werewolf => some .attack
  | .knight => some .guard
  | _ => none

/-- `Role.has_night_action`. -/
def Role.has_night_action (r : Role) : Bool :=
  r.night_action_type.isSome

/-- The string value of a role, as in the Python `str`-valued enum. -/
def Role.value : Role → String
  | .villager => "villager"
  | .seer => "seer"
  | .werewolf => "werewolf"
  | .knight => "knight"
  | .medium => "medium"
  | .madman => "madman"

/-- The `Role` enum exactly as checked in under
`domain/value_objects.py` (three members only). -/
inductive SrcRole where
  | villager
  | seer
  | werewolf
deriving DecidableEq, Repr

/-- The `NightActionType` enum exactly as checked in under
`domain/value_objects.py` (two members only). -/
inductive SrcNightActionType where
  | divine
  | attack
deriving DecidableEq, Repr

/-- `Role.team` exactly as checked in: only `WEREWOLF` maps to the
Werewolf team. -/
def SrcRole.team : SrcRole → Team
  | .werewolf => .werewolf
  | _ => .village

/-- `Role.night_action_type` exactly as checked in
(`_ROLE_NIGHT_ACTION`): seer → divine, werewolf → attack. -/
def SrcRole.night_action_type : SrcRole → Option SrcNightActionType
  | .seer => some .divine
  | .werewolf => some .attack
  | _ => none

/-- Phase (value_objects.Phase). -/
inductive Phase where
  | day
  | night
deriving DecidableEq, Repr

/-- PlayerStatus (value_objects.PlayerStatus). -/
inductive PlayerStatus where
  | alive
  | dead
deriving DecidableEq, Repr

/-- Player entity (player.Player). -/
structure Player where
  name : String
  role : Role
  status : PlayerStatus := .alive
deriving DecidableEq, Repr

/-- `Player.is_alive`. -/
def Player.is_alive (p : Player) : Bool :=
  p.status = PlayerStatus.alive

/-- `Player.killed`: raises ("already dead") on a dead player, embedded as
`none`; otherwise the dead copy. -/
def Player.killed (p : Player) : Option Player :=
  if p.is_alive then some { p with status := .dead } else none

/-- Game snapshot (game.GameState). -/
structure GameState where
  players : List Player
  phase : Phase := .day
  day : Nat := 1
  log : List String := []
  divined_history : List (String × String) := []
  guard_history : List (String × String) := []
  medium_results : List (Nat × String × Bool) := []
  gm_summary : Option String := none
  gm_summary_log_offset : Nat := 0
deriving DecidableEq, Repr

/-- `GameState.alive_players`. -/
def GameState.alive_players (g : GameState) : List Player :=
  g.players.filter (·.is_alive)

/-- `GameState.alive_werewolves` (by role, not team). -/
def GameState.alive_werewolves (g : GameState) : List Player :=
  g.alive_players.filter (·.role = Role.werewolf)

/-- `GameState.find_player(name, alive_only=...)`. -/
def GameState.find_player (g : GameState) (name : String) (aliveOnly : Bool := false) :
    Option Player :=
  (if aliveOnly then g.alive_players else g.players).find? (·.name = name)

/-- `GameState.replace_player(old, new)` (replace-by-identity on the
roster tuple, value-level). -/
def GameState.replace_player (g : GameState) (old new : Player) : GameState :=
  { g with players := g.players.map (fun p => if p = old then new else p) }

/-- `GameState.add_log`. -/
def GameState.add_log (g : GameState) (message : String) : GameState :=
  { g with log := g.log ++ [message] }

/-- `GameState.add_divine_history`. -/
def GameState.add_divine_history (g : GameState) (seer target : String) : GameState :=
  { g with divined_history := g.divined_history ++ [(seer, target)] }

/-- `GameState.get_divined_history(seer_name)`. -/
def GameState.get_divined_history (g : GameState) (seer_name : String) : List String :=
  (g.divined_history.filter (fun st => st.1 = seer_name)).map (·.2)

/-- `GameState.add_guard_history`. -/
def GameState.add_guard_history (g : GameState) (knight target : String) : GameState :=
  { g with guard_history := g.guard_history ++ [(knight, target)] }

/-- `GameState.get_last_guard_target(knight_name)` (scan the history in
reverse for the knight's latest entry). -/
def GameState.get_last_guard_target (g : GameState) (knight_name : String) :
    Option String :=
  ((g.guard_history.reverse).find? (fun kt => kt.1 = knight_name)).map (·.2)

/-- `GameState.add_medium_result`. -/
def GameState.add_medium_result (g : GameState) (day : Nat) (name : String)
    (is_werewolf : Bool) : GameState :=
  { g with medium_results := g.medium_results ++ [(day, name, is_werewolf)] }

/-- `services.check_victory`. -/
def check_victory (g : GameState) : Option Team :=
  let alive_werewolf_count := g.alive_werewolves.length
  let alive_non_werewolf_count := g.alive_players.length - alive_werewolf_count
  if alive_werewolf_count = 0 then some .village
  else if alive_non_werewolf_count ≤ alive_werewolf_count then some .werewolf
  else none

/-! ### String utilities mirroring Python's `str.startswith` and `in` -/

/-- Python `s.startswith(p)` over code points. -/
def swith (s p : String) : Bool :=
  p.toList.isPrefixOf s.toList

/-- Python substring containment over code points (`containsSub hay needle`
is `needle in hay`). -/
def containsSub : List Char → List Char → Bool
  | hay, needle =>
    needle.isPrefixOf hay ||
      match hay with
      | [] => false
      | _ :: t => containsSub t needle

/-- Python `needle in hay` on strings. -/
def scontains (hay needle : String) : Bool :=
  containsSub hay.toList needle.toList

/-! ### domain/game_log.py -/

/-- `_PRIVATE_PREFIXES` from game_log.py (note: it includes the
guard-success marker `[護衛成功]`). -/
def privateMarkers : List String :=
  ["[配役]", "[占い結果]", "[占い]", "[護衛]", "[霊媒結果]", "[人狼仲間]", "[護衛成功]"]

/-- `game_log._is_visible`. -/
def is_visible (log_entry : String) (player : Player) : Bool :=
  if swith log_entry "[配役]" then scontains log_entry player.name
  else if swith log_entry "[占い結果]" then
    decide (player.role = Role.seer) && scontains log_entry player.name
  else if swith log_entry "[占い]" then
    decide (player.role = Role.seer) && scontains log_entry player.name
  else if swith log_entry "[護衛]" then
    decide (player.role = Role.knight) && scontains log_entry player.name
  else if swith log_entry "[霊媒結果]" then
    decide (player.role = Role.medium) && scontains log_entry player.name
  else if swith log_entry "[人狼仲間]" then decide (player.role = Role.werewolf)
  else true

/-- `game_log.filter_log_entries`. -/
def filter_log_entries (entries : List String) (player : Player) : String :=
  String.intercalate "\n" (entries.filter (is_visible · player))

/-- `game_log.format_log_for_context`; the `raise ValueError` on an unknown
viewer is embedded as `Except.error`. -/
def format_log_for_context (g : GameState) (player_name : String)
    (max_recent_statements : Int := 30) : Except String String :=
  match g.find_player player_name false with
  | none => .error ("Player '" ++ player_name ++ "' not found in game")
  | some player =>
    let visible := (g.log.enum).filter (fun ie => is_visible ie.2 player)
    if max_recent_statements < 0 then
      .ok (String.intercalate "\n" (visible.map (·.2)))
    else
      let events := visible.filter (fun ie => !(swith ie.2 "[発言]"))
      let statements := visible.filter (fun ie => swith ie.2 "[発言]")
      let statements :=
        if (statements.length : Int) > max_recent_statements then
          if max_recent_statements > 0 then
            statements.drop (statements.length - max_recent_statements.toNat)
          else []
        else statements
      let merged := (events ++ statements).mergeSort (fun a b => a.1 ≤ b.1)
      .ok (String.intercalate "\n" (merged.map (·.2)))

/-- The entries `format_public_log` keeps: everything not starting with a
private marker. -/
def public_entries (g : GameState) : List String :=
  g.log.filter (fun entry => !(privateMarkers.any (fun p => swith entry p)))

/-- `game_log.format_public_log`. -/
def format_public_log (g : GameState) : String :=
  String.intercalate "\n" (public_entries g)

/-! ### domain/services.py eligibility rules -/

/-- `services.can_divine` (raises `ValueError` ⇒ `Except.error`). -/
def can_divine (g : GameState) (seer target : Player) : Except String Unit :=
  if seer.role ≠ Role.seer then .error (seer.name ++ " is not a seer")
  else if ¬ seer.is_alive then .error (seer.name ++ " is dead and cannot divine")
  else if target ∉ g.players then .error (target.name ++ " is not in the game")
  else if ¬ target.is_alive then .error (target.name ++ " is dead and cannot be divined")
  else if seer.name = target.name then .error (seer.name ++ " cannot divine themselves")
  else if target.name ∈ g.get_divined_history seer.name then
    .error (seer.name ++ " has already divined " ++ target.name)
  else .ok ()

/-- `services.can_attack`. -/
def can_attack (g : GameState) (werewolf target : Player) : Except String Unit :=
  if werewolf.role ≠ Role.werewolf then .error (werewolf.name ++ " is not a werewolf")
  else if ¬ werewolf.is_alive then .error (werewolf.name ++ " is dead and cannot attack")
  else if target ∉ g.players then .error (target.name ++ " is not in the game")
  else if ¬ target.is_alive then .error (target.name ++ " is dead and cannot be attacked")
  else if werewolf.name = target.name then .error (werewolf.name ++ " cannot attack themselves")
  else if target.role = Role.werewolf then
    .error (werewolf.name ++ " cannot attack another werewolf " ++ target.name)
  else .ok ()

/-- `services.can_guard` — note there is no restriction about the
previous protectee. -/
def can_guard (g : GameState) (knight target : Player) : Except String Unit :=
  if knight.role ≠ Role.knight then .error (knight.name ++ " is not a knight")
  else if ¬ knight.is_alive then .error (knight.name ++ " is dead and cannot guard")
  else if target ∉ g.players then .error (target.name ++ " is not in the game")
  else if ¬ target.is_alive then .error (target.name ++ " is dead and cannot be guarded")
  else if knight.name = target.name then .error (knight.name ++ " cannot guard themselves")
  else .ok ()

/-! ### engine/game_logic.py -/

/-- `game_logic.get_alive_speaking_order`. -/
def get_alive_speaking_order (g : GameState) (speaking_order : List String) : List Player :=
  if speaking_order.isEmpty then g.alive_players
  else
    (speaking_order.filterMap fun name =>
      g.alive_players.find? (·.name = name))

/-- `game_logic.get_divine_candidates`. -/
def get_divine_candidates (g : GameState) (seer : Player) : List Player :=
  let already_divined := g.get_divined_history seer.name
  g.alive_players.filter fun p =>
    !(decide (p.name = seer.name)) && !(already_divined.contains p.name)

/-- `game_logic.execute_divine`: validation plus log; the tentative result
`(seer, target, is_werewolf)` is returned, not yet committed. -/
def execute_divine (g : GameState) (seer : Player) (target_name : String) :
    GameState × Option (String × String × Bool) :=
  match g.find_player target_name true with
  | none => (g, none)
  | some target =>
    match can_divine g seer target with
    | .error _ => (g, none)
    | .ok _ =>
      let is_werewolf := decide (target.role = Role.werewolf)
      (g.add_log ("[占い] " ++ seer.name ++ " が " ++ target.name ++ " を占った"),
        some (seer.name, target_name, is_werewolf))

/-- `game_logic.get_guard_candidates`: excludes self and the most recent
protectee (a narrowing the eligibility rule does not impose). -/
def get_guard_candidates (g : GameState) (knight : Player) : List Player :=
  let last_guard_target := g.get_last_guard_target knight.name
  g.alive_players.filter fun p =>
    !(decide (p.name = knight.name)) && !(decide (last_guard_target = some p.name))

/-- `game_logic.execute_guard`: validation plus log plus guard-ledger entry. -/
def execute_guard (g : GameState) (knight : Player) (target_name : String) :
    GameState × Option String :=
  match g.find_player target_name true with
  | none => (g, none)
  | some target =>
    match can_guard g knight target with
    | .error _ => (g, none)
    | .ok _ =>
      ((g.add_log ("[護衛] " ++ knight.name ++ " が " ++ target.name ++ " を護衛した")).add_guard_history
          knight.name target.name,
        some target_name)

/-- `game_logic.get_attack_candidates`. -/
def get_attack_candidates (g : GameState) : List Player :=
  g.alive_players.filter (fun p => !(decide (p.role = Role.werewolf)))

/-- `game_logic.execute_attack`: validation only, the kill happens at the
call site. -/
def execute_attack (g : GameState) (werewolf : Player) (target_name : String) :
    GameState × Option String :=
  match g.find_player target_name true with
  | none => (g, none)
  | some target =>
    match can_attack g werewolf target with
    | .error _ => (g, none)
    | .ok _ => (g, some target_name)

/-- `game_logic.rotate_speaking_order`. -/
def rotate_speaking_order (speaking_order : List String) (removed_name : String) :
    List String :=
  if removed_name ∉ speaking_order then speaking_order
  else
    let idx := speaking_order.findIdx (fun n => decide (n = removed_name))
    speaking_order.drop (idx + 1) ++ speaking_order.take idx

/-- `game_logic.find_night_actor`: the first living holder of the requested
ability category. -/
def find_night_actor (g : GameState) (t : NightActionType) : Option Player :=
  g.alive_players.find? (fun p => decide (p.role.night_action_type = some t))

/-- `game_logic.get_night_action_candidates`. -/
def get_night_action_candidates (g : GameState) (player : Player) : List Player :=
  match player.role.night_action_type with
  | some .divine => get_divine_candidates g player
  | some .attack => get_attack_candidates g
  | some .guard => get_guard_candidates g player
  | none => []

/-! ### The action-source boundary (§6 capability contract)

An action source is the external collaborator deciding targets; the
interactive engine additionally reads an optional `last_thinking` text from
it after each call (`""` meaning none, matching Python's falsy check). -/

structure ActionSource where
  divine : GameState → Player → List Player → String
  guard : GameState → Player → List Player → String
  attack : GameState → Player → List Player → String
  divineThinking : GameState → Player → List Player → String := fun _ _ _ => ""
  guardThinking : GameState → Player → List Player → String := fun _ _ _ => ""
  attackThinking : GameState → Player → List Player → String := fun _ _ _ => ""

/-- The fixed data of an `InteractiveGameEngine`: the human participant's
name and the per-name action sources. -/
structure InteractiveEnv where
  human : String
  providers : String → ActionSource

/-! ### engine/interactive_engine.py night resolution -/

/-- `InteractiveGameEngine._resolve_divine`. -/
def resolveDivineI (env : InteractiveEnv) (g : GameState) (humanTarget : Option String) :
    GameState × Option (String × String × Bool) :=
  match find_night_actor g .divine with
  | none => (g, none)
  | some seer =>
    if (get_night_action_candidates g seer).isEmpty then (g, none)
    else if seer.name = env.human then
      match humanTarget with
      | none => (g, none)
      | some t => execute_divine g seer t
    else
      execute_divine
        (if (env.providers seer.name).divineThinking g seer (get_night_action_candidates g seer) ≠ "" then
          g.add_log ("[思考] " ++ seer.name ++ ": " ++
            (env.providers seer.name).divineThinking g seer (get_night_action_candidates g seer))
        else g)
        seer ((env.providers seer.name).divine g seer (get_night_action_candidates g seer))

/-- `InteractiveGameEngine._resolve_guard`. -/
def resolveGuardI (env : InteractiveEnv) (g : GameState) (humanTarget : Option String) :
    GameState × Option String :=
  match find_night_actor g .guard with
  | none => (g, none)
  | some knight =>
    if (get_night_action_candidates g knight).isEmpty then (g, none)
    else if knight.name = env.human then
      match humanTarget with
      | none => (g, none)
      | some t => execute_guard g knight t
    else
      execute_guard
        (if (env.providers knight.name).guardThinking g knight (get_night_action_candidates g knight) ≠ "" then
          g.add_log ("[思考] " ++ knight.name ++ ": " ++
            (env.providers knight.name).guardThinking g knight (get_night_action_candidates g knight))
        else g)
        knight ((env.providers knight.name).guard g knight (get_night_action_candidates g knight))

/-- `InteractiveGameEngine._resolve_attack`. -/
def resolveAttackI (env : InteractiveEnv) (g : GameState) (humanTarget : Option String) :
    GameState × Option String :=
  match find_night_actor g .attack with
  | none => (g, none)
  | some werewolf =>
    if (get_night_action_candidates g werewolf).isEmpty then (g, none)
    else if werewolf.name = env.human then
      match humanTarget with
      | none => (g, none)
      | some t => execute_attack g werewolf t
    else
      execute_attack
        (if (env.providers werewolf.name).attackThinking g werewolf (get_night_action_candidates g werewolf) ≠ "" then
          g.add_log ("[思考] " ++ werewolf.name ++ ": " ++
            (env.providers werewolf.name).attackThinking g werewolf (get_night_action_candidates g werewolf))
        else g)
        werewolf ((env.providers werewolf.name).attack g werewolf (get_night_action_candidates g werewolf))

/-- `InteractiveGameEngine.start_night`: night header, phase switch, and
whether the human holds a night action with at least one candidate. -/
def start_night (env : InteractiveEnv) (g : GameState) : GameState × Bool :=
  let g := { g.add_log ("--- Night " ++ toString g.day ++ " （夜フェーズ） ---") with
    phase := Phase.night }
  let humanStep :=
    match g.find_player env.human true with
    | none => false
    | some h => h.role.has_night_action && !(get_night_action_candidates g h).isEmpty
  (g, humanStep)

/-- The outcome of `InteractiveGameEngine.resolve_night`: the updated
snapshot, the (possibly rotated) speaking order, the night messages and the
victory evaluation. -/
structure NightOutcome where
  game : GameState
  order : List String
  messages : List String
  winner : Option Team
deriving Repr

/-- `InteractiveGameEngine.resolve_night`: divine → guard → attack, guard
nullification, seer self-invalidation, ledger commit, speaking-order
rotation, day advance, victory check. -/
def resolve_night (env : InteractiveEnv) (g : GameState) (order : List String)
    (humanDivine humanAttack humanGuard : Option String) : NightOutcome :=
  let step1 := resolveDivineI env g humanDivine
  let g1 := step1.1
  let divineResult := step1.2
  let step2 := resolveGuardI env g1 humanGuard
  let g2 := step2.1
  let guardTarget := step2.2
  let step3 := resolveAttackI env g2 humanAttack
  let g3 := step3.1
  let attackTarget := step3.2
  let afterAttack :
      GameState × List String × Option String × Option (String × String × Bool) :=
    match attackTarget with
    | none => (g3, [], none, divineResult)
    | some atn =>
      if guardTarget = some atn then
        (((g3.add_log ("[護衛成功] " ++ atn ++ " への襲撃は護衛により阻止された")).add_log
            "[襲撃] 今夜は誰も襲撃されなかった"),
          ["今夜は誰も襲撃されなかった"], none, divineResult)
      else
        match g3.find_player atn true with
        | none => (g3, [], none, divineResult)
        | some target =>
          match target.killed with
          | none => (g3, [], none, divineResult)
          | some dead_player =>
            let g' := (g3.replace_player target dead_player).add_log
              ("[襲撃] " ++ target.name ++ " が人狼に襲撃された")
            let dr :=
              match divineResult with
              | some (seer_name, _, _) =>
                if target.name = seer_name then none else divineResult
              | none => none
            (g', [target.name ++ " が人狼に襲撃された"], some target.name, dr)
  let g4 := afterAttack.1
  let messages := afterAttack.2.1
  let attackedName := afterAttack.2.2.1
  let divineResult' := afterAttack.2.2.2
  let g5 :=
    match divineResult' with
    | some (seer_name, target_name_rec, _) => g4.add_divine_history seer_name target_name_rec
    | none => g4
  let order' :=
    match attackedName with
    | some an => rotate_speaking_order order an
    | none => order
  let g6 := { g5 with phase := Phase.day, day := g5.day + 1 }
  { game := g6, order := order', messages := messages, winner := check_victory g6 }

/-! ### engine/game_engine.py (batch runner) night phase, exactly as
checked in: it resolves divine and attack only — no guard resolution, no
guard nullification, no speaking-order rotation. -/

/-- `GameEngine._resolve_divine` (the batch runner's inline copy; it never
logs thinking). -/
def resolveDivineB (providers : String → ActionSource) (g : GameState) :
    GameState × Option (String × String × Bool) :=
  match (g.alive_players.filter (·.role = Role.seer)).head? with
  | none => (g, none)
  | some seer =>
    if (g.alive_players.filter fun p =>
        !(decide (p.name = seer.name)) && !((g.get_divined_history seer.name).contains p.name)).isEmpty
    then (g, none)
    else
      match g.find_player ((providers seer.name).divine g seer
          (g.alive_players.filter fun p =>
            !(decide (p.name = seer.name)) &&
              !((g.get_divined_history seer.name).contains p.name))) true with
      | none => (g, none)
      | some target =>
        match can_divine g seer target with
        | .error _ => (g, none)
        | .ok _ =>
          (g.add_log ("[占い] " ++ seer.name ++ " が " ++ target.name ++ " を占った"),
            some (seer.name,
              (providers seer.name).divine g seer
                (g.alive_players.filter fun p =>
                  !(decide (p.name = seer.name)) &&
                    !((g.get_divined_history seer.name).contains p.name)),
              decide (target.role = Role.werewolf)))

/-- `GameEngine._resolve_attack` (the batch runner's inline copy). -/
def resolveAttackB (providers : String → ActionSource) (g : GameState) :
    GameState × Option String :=
  match (g.alive_players.filter (·.role = Role.werewolf)).head? with
  | none => (g, none)
  | some werewolf =>
    if (g.alive_players.filter (fun p => !(decide (p.role = Role.werewolf)))).isEmpty then (g, none)
    else
      match g.find_player ((providers werewolf.name).attack g werewolf
          (g.alive_players.filter (fun p => !(decide (p.role = Role.werewolf))))) true with
      | none => (g, none)
      | some target =>
        match can_attack g werewolf target with
        | .error _ => (g, none)
        | .ok _ =>
          (g, some ((providers werewolf.name).attack g werewolf
            (g.alive_players.filter (fun p => !(decide (p.role = Role.werewolf))))))

/-- `GameEngine._night_phase`, exactly as checked in under src: header,
phase switch, divine, attack, unconditional kill of the attack target,
seer self-invalidation, ledger commit, day advance. -/
def night_phase_batch (providers : String → ActionSource) (g : GameState) : GameState :=
  let g := { g.add_log ("--- Night " ++ toString g.day ++ " （夜フェーズ） ---") with
    phase := Phase.night }
  let step1 := resolveDivineB providers g
  let g1 := step1.1
  let divineResult := step1.2
  let step2 := resolveAttackB providers g1
  let g2 := step2.1
  let attackTargetName := step2.2
  let afterAttack : GameState × Option (String × String × Bool) :=
    match attackTargetName with
    | none => (g2, divineResult)
    | some atn =>
      match g2.find_player atn true with
      | none => (g2, divineResult)
      | some target =>
        match target.killed with
        | none => (g2, divineResult)
        | some dead_player =>
          let g' := (g2.replace_player target dead_player).add_log
            ("[襲撃] " ++ target.name ++ " が人狼に襲撃された")
          let dr :=
            match divineResult with
            | some (seer_name, _, _) =>
              if target.name = seer_name then none else divineResult
            | none => none
          (g', dr)
  let g3 := afterAttack.1
  let divineResult' := afterAttack.2
  let g4 :=
    match divineResult' with
    | some (seer_name, target_name, _) => g3.add_divine_history seer_name target_name
    | none => g3
  { g4 with phase := Phase.day, day := g4.day + 1 }

/-! ### Concrete scenario data used by witnesses and counterexamples -/

/-- A living player. -/
def mkP (n : String) (r : Role) : Player := { name := n, role := r, status := .alive }

/-- The nine-player roster of the repository's own engine tests. -/
def gC3 : GameState :=
  { players := [mkP "Alice" .seer, mkP "Bob" .werewolf, mkP "Charlie" .knight,
      mkP "Dave" .villager, mkP "Eve" .villager, mkP "Frank" .werewolf,
      mkP "Grace" .medium, mkP "Heidi" .madman, mkP "Ivan" .villager] }

/-- Fixed choices: the seer divines Bob, the knight guards Alice, the wolf
attacks Alice. -/
def srcC3 : ActionSource :=
  { divine := fun _ _ _ => "Bob", guard := fun _ _ _ => "Alice", attack := fun _ _ _ => "Alice" }

def envC3 : InteractiveEnv := { human := "", providers := fun _ => srcC3 }

/-- Dead wolf, living madman, living villager. -/
def gC1w : GameState :=
  { players := [{ name := "Wolfgang", role := .werewolf, status := .dead },
      mkP "Mad" .madman, mkP "Vera" .villager] }

/-- Roster with a dead participant Dan as an illegal night-action target. -/
def g5w : GameState :=
  { players := [mkP "Sara" .seer, mkP "Ken" .knight, mkP "Wolf" .werewolf,
      { name := "Dan", role := .villager, status := .dead }] }

/-- A knight whose most recent protectee is Tom. -/
def g9w : GameState :=
  { players := [mkP "Ken" .knight, mkP "Tom" .villager, mkP "Dan" .villager],
    guard_history := [("Ken", "Tom")] }

/-- A game whose log holds exactly one guard-success entry. -/
def g8 : GameState :=
  { players := [], log := ["[護衛成功] Alice への襲撃は護衛により阻止された"] }

/-- Knight, wolf and villager for the guard-nullification witness. -/
def gC4 : GameState :=
  { players := [mkP "Ken" .knight, mkP "Wolf" .werewolf, mkP "Carol" .villager] }

/-- Choices: guard Carol, attack Carol (nullified). -/
def srcC4 : ActionSource :=
  { divine := fun _ _ _ => "", guard := fun _ _ _ => "Carol", attack := fun _ _ _ => "Carol" }

def envC4 : InteractiveEnv := { human := "", providers := fun _ => srcC4 }

/-- Choices: guard Wolf, attack Carol (kill goes through). -/
def srcC4b : ActionSource :=
  { divine := fun _ _ _ => "", guard := fun _ _ _ => "Wolf", attack := fun _ _ _ => "Carol" }

def envC4b : InteractiveEnv := { human := "", providers := fun _ => srcC4b }

/-- Seer, wolf and villager for the seer-self-invalidation witness. -/
def gC6 : GameState :=
  { players := [mkP "Alice" .seer, mkP "Bob" .werewolf, mkP "Carol" .villager] }

/-- Choices: divine Bob, attack Alice (the seer dies, result discarded). -/
def srcC6 : ActionSource :=
  { divine := fun _ _ _ => "Bob", guard := fun _ _ _ => "", attack := fun _ _ _ => "Alice" }

def envC6 : InteractiveEnv := { human := "", providers := fun _ => srcC6 }

/-- Choices: divine Bob, attack Carol (the seer survives, result committed). -/
def srcC6b : ActionSource :=
  { divine := fun _ _ _ => "Bob", guard := fun _ _ _ => "", attack := fun _ _ _ => "Carol" }

def envC6b : InteractiveEnv := { human := "", providers := fun _ => srcC6b }

/-! ### Decomposed night cores (the code of `resolve_night` and
`GameEngine._night_phase` after the three resolver calls, abstracted over
the resolver outcomes; used to state and prove the night-resolution
claims) -/

/-- The tail of `resolve_night` after divine/guard/attack produced
`dres`/`gt`/`at'` and the snapshot `g3`. -/
def nightCore (order : List String) (dres : Option (String × String × Bool))
    (gt at' : Option String) (g3 : GameState) : NightOutcome :=
  let afterAttack :
      GameState × List String × Option String × Option (String × String × Bool) :=
    match at' with
    | none => (g3, [], none, dres)
    | some atn =>
      if gt = some atn then
        (((g3.add_log ("[護衛成功] " ++ atn ++ " への襲撃は護衛により阻止された")).add_log
            "[襲撃] 今夜は誰も襲撃されなかった"),
          ["今夜は誰も襲撃されなかった"], none, dres)
      else
        match g3.find_player atn true with
        | none => (g3, [], none, dres)
        | some target =>
          match target.killed with
          | none => (g3, [], none, dres)
          | some dead_player =>
            ((g3.replace_player target dead_player).add_log
                ("[襲撃] " ++ target.name ++ " が人狼に襲撃された"),
              [target.name ++ " が人狼に襲撃された"], some target.name,
              match dres with
              | some (seer_name, _, _) => if target.name = seer_name then none else dres
              | none => none)
  let g4 := afterAttack.1
  let messages := afterAttack.2.1
  let attackedName := afterAttack.2.2.1
  let divineResult := afterAttack.2.2.2
  let g5 :=
    match divineResult with
    | some (seer_name, target_name_rec, _) => g4.add_divine_history seer_name target_name_rec
    | none => g4
  let order2 :=
    match attackedName with
    | some an => rotate_speaking_order order an
    | none => order
  let g6 := { g5 with phase := Phase.day, day := g5.day + 1 }
  { game := g6, order := order2, messages := messages, winner := check_victory g6 }

/-- The tail of `GameEngine._night_phase` after divine/attack produced
`dres`/`at'` and the snapshot `g2`. -/
def nightCoreB (dres : Option (String × String × Bool)) (at' : Option String)
    (g2 : GameState) : GameState :=
  let afterAttack : GameState × Option (String × String × Bool) :=
    match at' with
    | none => (g2, dres)
    | some atn =>
      match g2.find_player atn true with
      | none => (g2, dres)
      | some target =>
        match target.killed with
        | none => (g2, dres)
        | some dead_player =>
          ((g2.replace_player target dead_player).add_log
              ("[襲撃] " ++ target.name ++ " が人狼に襲撃された"),
            match dres with
            | some (seer_name, _, _) => if target.name = seer_name then none else dres
            | none => none)
  let g3 := afterAttack.1
  let divineResult := afterAttack.2
  let g4 :=
    match divineResult with
    | some (seer_name, target_name, _) => g3.add_divine_history seer_name target_name
    | none => g3
  { g4 with phase := Phase.day, day := g4.day + 1 }

/-! ### Helper lemmas about the snapshot operations -/

theorem containsSub_iff (hay needle : List Char) :
    containsSub hay needle = true ↔ needle <:+: hay := by
  induction hay with
  | nil =>
    rw [containsSub]
    simp [List.isPrefixOf_iff_prefix, List.infix_iff_prefix_suffix]
  | cons a t ih =>
    rw [containsSub]
    simp only [Bool.or_eq_true, ih, List.isPrefixOf_iff_prefix]
    constructor
    · rintro (h | h)
      · exact h.isInfix
      · exact List.infix_cons h
    · intro h
      rcases List.infix_cons_iff.mp h with h | h
      · exact Or.inl h
      · exact Or.inr h


theorem add_log_players (g : GameState) (m : String) : (g.add_log m).players = g.players := rfl

theorem add_log_divined (g : GameState) (m : String) :
    (g.add_log m).divined_history = g.divined_history := rfl

theorem add_guard_history_players (g : GameState) (k t : String) :
    (g.add_guard_history k t).players = g.players := rfl

theorem add_guard_history_divined (g : GameState) (k t : String) :
    (g.add_guard_history k t).divined_history = g.divined_history := rfl

theorem add_divine_history_players (g : GameState) (s t : String) :
    (g.add_divine_history s t).players = g.players := rfl

theorem replace_player_divined (g : GameState) (o n : Player) :
    (g.replace_player o n).divined_history = g.divined_history := rfl

theorem find_player_congr {g₁ g₂ : GameState} (h : g₁.players = g₂.players)
    (n : String) (b : Bool) : g₁.find_player n b = g₂.find_player n b := by
  unfold GameState.find_player GameState.alive_players
  rw [h]

theorem find_player_alive_props {g : GameState} {n : String} {p : Player}
    (h : g.find_player n true = some p) :
    p.is_alive = true ∧ p.name = n ∧ p ∈ g.players := by
  unfold GameState.find_player at h
  simp only [if_pos] at h
  have hmem := List.mem_of_find?_eq_some h
  have hpred := List.find?_some h
  rw [GameState.alive_players, List.mem_filter] at hmem
  refine ⟨hmem.2, ?_, hmem.1⟩
  simpa using hpred

theorem find?_filter_alive_of_alive {l : List Player} {t : String} {e : Player}
    (he : l.find? (fun p => decide (p.name = t)) = some e) (ha : e.is_alive = true) :
    (l.filter (·.is_alive)).find? (fun p => decide (p.name = t)) = some e := by
  induction l with
  | nil => simp at he
  | cons a l ih =>
    rw [List.find?_cons] at he
    by_cases hpa : a.name = t
    · simp only [decide_eq_true hpa] at he
      have hea : e = a := by cases he; rfl
      subst hea
      rw [List.filter_cons, if_pos ha, List.find?_cons]
      simp [decide_eq_true hpa]
    · simp only [decide_eq_false hpa] at he
      rw [List.filter_cons]
      by_cases haa : a.is_alive = true
      · rw [if_pos haa, List.find?_cons]
        simp only [decide_eq_false hpa]
        exact ih he
      · rw [if_neg haa]
        exact ih he

theorem find_player_after_kill {g : GameState} {t : String} {target : Player}
    (hf : g.find_player t true = some target) :
    ∃ q, (g.replace_player target { target with status := PlayerStatus.dead }).find_player t
        = some q ∧ q.is_alive = false := by
  obtain ⟨htalive, htname, htmem⟩ := find_player_alive_props hf
  unfold GameState.find_player at hf
  simp only [if_pos] at hf
  set d : Player := { target with status := PlayerStatus.dead } with hd
  have hdname : d.name = target.name := rfl
  have hddead : d.is_alive = false := by simp [Player.is_alive, hd]
  set f : Player → Player := fun p => if p = target then d else p with hfdef
  have hfname : ∀ p, (f p).name = p.name := by
    intro p
    by_cases hp : p = target
    · simp [hfdef, hp, hdname]
    · simp [hfdef, hp]
  unfold GameState.replace_player GameState.find_player
  simp only [if_neg, Bool.false_eq_true, if_false]
  have hcomp : ((fun p => decide (p.name = t)) ∘ f) = (fun p : Player => decide (p.name = t)) := by
    funext p
    simp [Function.comp, hfname p]
  have hmap : (g.players.map f).find? (fun p => decide (p.name = t)) =
      Option.map f (g.players.find? (fun p => decide (p.name = t))) := by
    rw [List.find?_map, hcomp]
  have hex : ∃ e, g.players.find? (fun p => decide (p.name = t)) = some e := by
    rw [← Option.isSome_iff_exists, List.find?_isSome]
    exact ⟨target, htmem, by simp [htname]⟩
  obtain ⟨e, he⟩ := hex
  by_cases heq : e = target
  · refine ⟨d, ?_, hddead⟩
    rw [hmap, he]
    simp [hfdef, heq]
  · have hedead : e.is_alive = false := by
      by_contra hal
      have hal' : e.is_alive = true := by
        cases hcase : e.is_alive
        · exact absurd hcase hal
        · rfl
      have hfind := find?_filter_alive_of_alive he hal'
      rw [GameState.alive_players] at hf
      rw [hf] at hfind
      exact heq (by cases hfind; rfl)
    refine ⟨e, ?_, hedead⟩
    rw [hmap, he]
    simp [hfdef, heq]

/-! ### Helper lemmas about the night-action executors and resolvers -/

theorem execute_divine_players (g : GameState) (s : Player) (tn : String) :
    (execute_divine g s tn).1.players = g.players := by
  unfold execute_divine
  split
  · rfl
  · split
    · rfl
    · rfl

theorem execute_divine_divined (g : GameState) (s : Player) (tn : String) :
    (execute_divine g s tn).1.divined_history = g.divined_history := by
  unfold execute_divine
  split
  · rfl
  · split
    · rfl
    · rfl

theorem execute_guard_players (g : GameState) (k : Player) (tn : String) :
    (execute_guard g k tn).1.players = g.players := by
  unfold execute_guard
  split
  · rfl
  · split
    · rfl
    · rfl

theorem execute_guard_divined (g : GameState) (k : Player) (tn : String) :
    (execute_guard g k tn).1.divined_history = g.divined_history := by
  unfold execute_guard
  split
  · rfl
  · split
    · rfl
    · rfl

theorem execute_attack_fst (g : GameState) (w : Player) (tn : String) :
    (execute_attack g w tn).1 = g := by
  unfold execute_attack
  split
  · rfl
  · split
    · rfl
    · rfl

theorem execute_attack_some {g g' : GameState} {w : Player} {tn t : String}
    (h : execute_attack g w tn = (g', some t)) :
    g' = g ∧ t = tn ∧ ∃ p, g.find_player tn true = some p := by
  unfold execute_attack at h
  revert h
  split
  · intro h
    simp at h
  · rename_i target hfind
    split
    · intro h
      simp at h
    · intro h
      obtain ⟨h1, h2⟩ := Prod.mk.injEq .. ▸ h
      refine ⟨h1.symm, ?_, target, hfind⟩
      cases h2
      rfl

theorem resolveDivineI_players (env : InteractiveEnv) (g : GameState) (ht : Option String) :
    (resolveDivineI env g ht).1.players = g.players := by
  unfold resolveDivineI
  (repeat' split) <;> simp [execute_divine_players, add_log_players]

theorem resolveDivineI_divined (env : InteractiveEnv) (g : GameState) (ht : Option String) :
    (resolveDivineI env g ht).1.divined_history = g.divined_history := by
  unfold resolveDivineI
  (repeat' split) <;> simp [execute_divine_divined, add_log_divined]

theorem resolveGuardI_players (env : InteractiveEnv) (g : GameState) (ht : Option String) :
    (resolveGuardI env g ht).1.players = g.players := by
  unfold resolveGuardI
  (repeat' split) <;> simp [execute_guard_players, add_log_players]

theorem resolveGuardI_divined (env : InteractiveEnv) (g : GameState) (ht : Option String) :
    (resolveGuardI env g ht).1.divined_history = g.divined_history := by
  unfold resolveGuardI
  (repeat' split) <;> simp [execute_guard_divined, add_log_divined]

theorem resolveAttackI_players (env : InteractiveEnv) (g : GameState) (ht : Option String) :
    (resolveAttackI env g ht).1.players = g.players := by
  unfold resolveAttackI
  (repeat' split) <;> simp [execute_attack_fst, add_log_players]

theorem resolveAttackI_divined (env : InteractiveEnv) (g : GameState) (ht : Option String) :
    (resolveAttackI env g ht).1.divined_history = g.divined_history := by
  unfold resolveAttackI
  (repeat' split) <;> simp [execute_attack_fst, add_log_divined]

theorem resolveAttackI_some {env : InteractiveEnv} {g g' : GameState} {ht : Option String}
    {t : String} (h : resolveAttackI env g ht = (g', some t)) :
    ∃ p, g'.find_player t true = some p := by
  unfold resolveAttackI at h
  repeat' split at h
  all_goals try (exfalso; simp at h)
  all_goals
    obtain ⟨hg, ht', hp, hfind⟩ := execute_attack_some h
  all_goals subst hg
  all_goals subst ht'
  all_goals exact ⟨hp, hfind⟩

theorem resolveDivineB_players (prov : String → ActionSource) (g : GameState) :
    (resolveDivineB prov g).1.players = g.players := by
  unfold resolveDivineB
  (repeat' split) <;> simp [add_log_players]

theorem resolveDivineB_divined (prov : String → ActionSource) (g : GameState) :
    (resolveDivineB prov g).1.divined_history = g.divined_history := by
  unfold resolveDivineB
  (repeat' split) <;> simp [add_log_divined]

theorem resolveAttackB_fst (prov : String → ActionSource) (g : GameState) :
    (resolveAttackB prov g).1 = g := by
  unfold resolveAttackB
  (repeat' split) <;> rfl

theorem resolveAttackB_some {prov : String → ActionSource} {g g' : GameState} {t : String}
    (h : resolveAttackB prov g = (g', some t)) :
    g' = g ∧ ∃ p, g.find_player t true = some p := by
  unfold resolveAttackB at h
  repeat' split at h
  all_goals try (exfalso; simp at h; done)
  rename_i x2 w hw hne x1 target hfind x a hcan
  injection h with h1 h2
  injection h2 with h3
  rw [h3] at hfind
  exact ⟨h1.symm, target, hfind⟩

/-! ### String helper lemmas -/

theorem string_toList_append (a b : String) : (a ++ b).toList = a.toList ++ b.toList := by
  simp [String.toList, String.data_append]

theorem swith_of_prefix {s p : String} (h : p.toList <+: s.toList) : swith s p = true := by
  unfold swith
  rw [List.isPrefixOf_iff_prefix]
  exact h

theorem scontains_of_infix {s n : String} (h : n.toList <:+: s.toList) :
    scontains s n = true := by
  unfold scontains
  rw [containsSub_iff]
  exact h

theorem gs_not_role (rest : List Char) :
    List.isPrefixOf "[配役]".toList ("[護衛成功]".toList ++ rest) = false := rfl

theorem gs_not_divres (rest : List Char) :
    List.isPrefixOf "[占い結果]".toList ("[護衛成功]".toList ++ rest) = false := rfl

theorem gs_not_div (rest : List Char) :
    List.isPrefixOf "[占い]".toList ("[護衛成功]".toList ++ rest) = false := rfl

theorem gs_not_guard (rest : List Char) :
    List.isPrefixOf "[護衛]".toList ("[護衛成功]".toList ++ rest) = false := rfl

theorem gs_not_medium (rest : List Char) :
    List.isPrefixOf "[霊媒結果]".toList ("[護衛成功]".toList ++ rest) = false := rfl

theorem gs_not_wolf (rest : List Char) :
    List.isPrefixOf "[人狼仲間]".toList ("[護衛成功]".toList ++ rest) = false := rfl

/-! ### Claim theorems -/

/-- Claim C1: `check_victory` returns village iff the living wolf-role count
is zero; otherwise werewolf iff living non-wolf count is at most the living
wolf count; otherwise none. Counting is by wolf role, so killing every
wolf-role player yields the village win even with a living madman. -/
theorem c1_check_victory (g : GameState) :
    (check_victory g = some Team.village ↔ g.alive_werewolves.length = 0)
  ∧ (g.alive_werewolves.length ≠ 0 →
      (check_victory g = some Team.werewolf ↔
        g.alive_players.length - g.alive_werewolves.length ≤ g.alive_werewolves.length))
  ∧ (g.alive_werewolves.length ≠ 0 →
      ¬(g.alive_players.length - g.alive_werewolves.length ≤ g.alive_werewolves.length) →
      check_victory g = none)
  ∧ ((∀ p ∈ g.players, p.is_alive = true → p.role ≠ Role.werewolf) →
      check_victory g = some Team.village) := by
  refine ⟨?_, ?_, ?_, ?_⟩
  · by_cases h0 : g.alive_werewolves.length = 0
    · simp [check_victory, h0]
    · by_cases h1 : g.alive_players.length - g.alive_werewolves.length ≤ g.alive_werewolves.length
      · simp [check_victory, h0, h1]
      · simp [check_victory, h0, h1]
  · intro h0
    by_cases h1 : g.alive_players.length - g.alive_werewolves.length ≤ g.alive_werewolves.length
    · simp [check_victory, h0, h1]
    · simp [check_victory, h0, h1]
  · intro h0 h1
    simp [check_victory, h0, h1]
  · intro hall
    have h0 : g.alive_werewolves.length = 0 := by
      rw [List.length_eq_zero]
      rw [GameState.alive_werewolves, List.filter_eq_nil_iff]
      intro p hp
      have hmem := List.mem_filter.mp hp
      have := hall p hmem.1 hmem.2
      simpa using this
    simp [check_victory, h0]

/-- Witness for C1: all wolf-role players dead, a madman alive — village
wins. -/
theorem c1_check_victory_witness : check_victory gC1w = some Team.village :=
  (c1_check_victory gC1w).2.2.2 (by decide)

/-- Claim C2: the role table as checked in under src defines only three
roles — exactly one of them (the wolf itself) maps to the Werewolf team and
no role carries a guard ability, contradicting the claim (and the repo's own
tests); the spec's six-role table, modelled here, does satisfy the claim. -/
theorem c2_role_table :
    ([SrcRole.villager, SrcRole.seer, SrcRole.werewolf].filter
        (fun r => decide (SrcRole.team r = Team.werewolf)) = [SrcRole.werewolf])
  ∧ (∀ a : SrcNightActionType, a = SrcNightActionType.divine ∨ a = SrcNightActionType.attack)
  ∧ (∀ r : Role, Role.team r = Team.werewolf ↔ (r = Role.werewolf ∨ r = Role.madman))
  ∧ Role.night_action_type Role.seer = some NightActionType.divine
  ∧ Role.night_action_type Role.werewolf = some NightActionType.attack
  ∧ Role.night_action_type Role.knight = some NightActionType.guard
  ∧ Role.night_action_type Role.madman = none
  ∧ Role.night_action_type Role.villager = none
  ∧ Role.night_action_type Role.medium = none := by
  refine ⟨by decide, ?_, ?_, rfl, rfl, rfl, rfl, rfl, rfl⟩
  · intro a
    cases a
    · exact Or.inl rfl
    · exact Or.inr rfl
  · intro r
    cases r <;> simp [Role.team]

/-- Claim C3: with identical choices (seer divines Bob, knight guards Alice,
wolf attacks Alice) the checked-in batch night phase kills Alice and discards
her divination, while the step-wise night resolution nullifies the attack,
keeps Alice alive and commits the divination — the two runners do not drive
identical rules. -/
theorem c3_night_divergence :
    (night_phase_batch (fun _ => srcC3) gC3).find_player "Alice" =
      some { name := "Alice", role := Role.seer, status := PlayerStatus.dead }
  ∧ (resolve_night envC3 (start_night envC3 gC3).1
        ["Alice", "Bob", "Charlie", "Dave", "Eve", "Frank", "Grace", "Heidi", "Ivan"]
        none none none).game.find_player "Alice" =
      some { name := "Alice", role := Role.seer, status := PlayerStatus.alive }
  ∧ (night_phase_batch (fun _ => srcC3) gC3).divined_history = []
  ∧ (resolve_night envC3 (start_night envC3 gC3).1
        ["Alice", "Bob", "Charlie", "Dave", "Eve", "Frank", "Grace", "Heidi", "Ivan"]
        none none none).game.divined_history = [("Alice", "Bob")]
  ∧ ("[護衛成功] Alice への襲撃は護衛により阻止された" ∈
      (resolve_night envC3 (start_night envC3 gC3).1
        ["Alice", "Bob", "Charlie", "Dave", "Eve", "Frank", "Grace", "Heidi", "Ivan"]
        none none none).game.log)
  ∧ ("[護衛成功] Alice への襲撃は護衛により阻止された" ∉
      (night_phase_batch (fun _ => srcC3) gC3).log)
  ∧ (resolve_night envC3 (start_night envC3 gC3).1
        ["Alice", "Bob", "Charlie", "Dave", "Eve", "Frank", "Grace", "Heidi", "Ivan"]
        none none none).order =
      ["Alice", "Bob", "Charlie", "Dave", "Eve", "Frank", "Grace", "Heidi", "Ivan"]
  ∧ (night_phase_batch (fun _ => srcC3) gC3).players ≠
      (resolve_night envC3 (start_night envC3 gC3).1
        ["Alice", "Bob", "Charlie", "Dave", "Eve", "Frank", "Grace", "Heidi", "Ivan"]
        none none none).game.players := by
  refine ⟨by decide, by decide, by decide, by decide, by decide, by decide, by decide, by decide⟩

/-- Claim C5: each night-action executor returns the game state unchanged
and no result whenever the target name finds no living player (unknown or
dead) or the eligibility check rejects; all three are total functions, so
no exception can escape. -/
theorem c5_executors_no_effect (g : GameState) (actor : Player) (tn : String) :
    ((g.find_player tn true = none ∨
        (∃ target, g.find_player tn true = some target ∧ can_divine g actor target ≠ .ok ())) →
      execute_divine g actor tn = (g, none))
  ∧ ((g.find_player tn true = none ∨
        (∃ target, g.find_player tn true = some target ∧ can_guard g actor target ≠ .ok ())) →
      execute_guard g actor tn = (g, none))
  ∧ ((g.find_player tn true = none ∨
        (∃ target, g.find_player tn true = some target ∧ can_attack g actor target ≠ .ok ())) →
      execute_attack g actor tn = (g, none)) := by
  refine ⟨?_, ?_, ?_⟩
  · rintro (h | ⟨target, hfind, hc⟩)
    · unfold execute_divine
      rw [h]
    · unfold execute_divine
      rw [hfind]
      cases hcd : can_divine g actor target with
      | error e => simp [hcd]
      | ok u =>
        cases u
        exact absurd hcd hc
  · rintro (h | ⟨target, hfind, hc⟩)
    · unfold execute_guard
      rw [h]
    · unfold execute_guard
      rw [hfind]
      cases hcd : can_guard g actor target with
      | error e => simp [hcd]
      | ok u =>
        cases u
        exact absurd hcd hc
  · rintro (h | ⟨target, hfind, hc⟩)
    · unfold execute_attack
      rw [h]
    · unfold execute_attack
      rw [hfind]
      cases hcd : can_attack g actor target with
      | error e => simp [hcd]
      | ok u =>
        cases u
        exact absurd hcd hc

/-- Witness for C5: the dead target Dan is a no-op for all three
executors. -/
theorem c5_executors_no_effect_witness :
    execute_divine g5w (mkP "Sara" .seer) "Dan" = (g5w, none)
  ∧ execute_guard g5w (mkP "Ken" .knight) "Dan" = (g5w, none)
  ∧ execute_attack g5w (mkP "Wolf" .werewolf) "Dan" = (g5w, none) :=
  ⟨(c5_executors_no_effect g5w (mkP "Sara" .seer) "Dan").1 (Or.inl (by decide)),
   (c5_executors_no_effect g5w (mkP "Ken" .knight) "Dan").2.1 (Or.inl (by decide)),
   (c5_executors_no_effect g5w (mkP "Wolf" .werewolf) "Dan").2.2 (Or.inl (by decide))⟩

/-- Claim C9: `can_guard` succeeds exactly when the actor is a living
knight, the target is a living roster member and the actor is not the
target — no protectee-repetition restriction — while the candidate helper
`get_guard_candidates` does exclude the most recent protectee. -/
theorem c9_guard_eligibility (g : GameState) (k t : Player) :
    (can_guard g k t = .ok () ↔
      (k.role = Role.knight ∧ k.is_alive = true ∧ t ∈ g.players ∧ t.is_alive = true ∧
        k.name ≠ t.name))
  ∧ (∀ p ∈ get_guard_candidates g k, g.get_last_guard_target k.name ≠ some p.name) := by
  constructor
  · unfold can_guard
    split_ifs with h1 h2 h3 h4 h5 <;> simp_all
  · intro p hp
    rw [get_guard_candidates, List.mem_filter] at hp
    have h2 := hp.2
    simp only [Bool.and_eq_true, Bool.not_eq_true', decide_eq_false_iff_not] at h2
    exact h2.2

/-- Witness for C9: Ken may re-guard Tom, his most recent protectee, even
though Tom is excluded from the candidate list. -/
theorem c9_guard_eligibility_witness :
    can_guard g9w (mkP "Ken" .knight) (mkP "Tom" .villager) = .ok ()
  ∧ g9w.get_last_guard_target "Ken" = some "Tom"
  ∧ g9w.get_last_guard_target "Ken" ≠ some (mkP "Dan" Role.villager).name :=
  ⟨(c9_guard_eligibility g9w (mkP "Ken" .knight) (mkP "Tom" .villager)).1.mpr (by decide),
   by decide,
   (c9_guard_eligibility g9w (mkP "Ken" .knight) (mkP "Dan" .villager)).2
     (mkP "Dan" .villager) (by decide)⟩

/-- Claim C10: `format_log_for_context` fails with the named error
"Player ... not found" whenever the viewer name matches no roster member,
for any statement cap. -/
theorem c10_context_unknown_viewer (g : GameState) (name : String) (m : Int)
    (h : g.find_player name false = none) :
    format_log_for_context g name m = .error ("Player '" ++ name ++ "' not found in game") := by
  unfold format_log_for_context
  rw [h]

/-- Witness for C10: an empty roster rejects the viewer Zoe. -/
theorem c10_context_unknown_viewer_witness :
    format_log_for_context { players := [] } "Zoe" 30 =
      .error ("Player '" ++ "Zoe" ++ "' not found in game") :=
  c10_context_unknown_viewer { players := [] } "Zoe" 30 rfl

/-- Counterexample to claim C7 as stated: the role-reveal filter matches the
viewer's name as a substring, so the entry naming Alice is also visible to a
different viewer named Ali. -/
theorem c7_substring_leak :
    is_visible "[配役] Alice: villager"
      { name := "Ali", role := Role.villager, status := PlayerStatus.alive } = true
  ∧ ("Ali" : String) ≠ "Alice"
  ∧ filter_log_entries ["[配役] Alice: villager"]
      { name := "Ali", role := Role.villager, status := PlayerStatus.alive } =
      "[配役] Alice: villager" := by
  refine ⟨by decide, by decide, by decide⟩

/-- Claim C7 (amended): a role-reveal entry is visible to exactly the
viewers whose name occurs as a substring of the entry; in particular the
named participant always sees their own reveal, and when no participant
name is a substring of another's entry the original claim holds. -/
theorem c7_role_reveal_visibility (viewer : Player) :
    (∀ entry : String, swith entry "[配役]" = true →
      (is_visible entry viewer = true ↔ scontains entry viewer.name = true))
  ∧ (∀ x : String, ∀ r : Role, viewer.name = x →
      is_visible ("[配役] " ++ x ++ ": " ++ Role.value r) viewer = true) := by
  constructor
  · intro entry h
    unfold is_visible
    rw [if_pos h]
  · intro x r hx
    have htl : ("[配役] " ++ x ++ ": " ++ Role.value r).toList =
        "[配役] ".toList ++ x.toList ++ (": ".toList ++ (Role.value r).toList) := by
      simp only [string_toList_append, List.append_assoc]
    have hsw : swith ("[配役] " ++ x ++ ": " ++ Role.value r) "[配役]" = true := by
      apply swith_of_prefix
      rw [htl]
      exact ⟨' ' :: (x.toList ++ (": ".toList ++ (Role.value r).toList)), by simp⟩
    have hsub : scontains ("[配役] " ++ x ++ ": " ++ Role.value r) viewer.name = true := by
      apply scontains_of_infix
      rw [hx, htl]
      exact List.infix_append _ _ _
    unfold is_visible
    rw [if_pos hsw]
    exact hsub

/-- Witness for C7 (amended): Bob sees his own reveal; Cara, whose name is
not a substring of it, does not. -/
theorem c7_role_reveal_visibility_witness :
    is_visible "[配役] Bob: seer"
      { name := "Bob", role := Role.seer, status := PlayerStatus.alive } = true
  ∧ is_visible "[配役] Bob: seer"
      { name := "Cara", role := Role.villager, status := PlayerStatus.alive } = false := by
  constructor
  · exact (c7_role_reveal_visibility
      { name := "Bob", role := Role.seer, status := PlayerStatus.alive }).2 "Bob" Role.seer rfl
  · have h := (c7_role_reveal_visibility
      { name := "Cara", role := Role.villager, status := PlayerStatus.alive }).1
      "[配役] Bob: seer" (by decide)
    cases hiv : is_visible "[配役] Bob: seer"
        { name := "Cara", role := Role.villager, status := PlayerStatus.alive }
    · rfl
    · exact absurd (h.mp hiv) (by decide)

/-- Counterexample to claim C8 as stated: the public-subsequence function
excludes guard-success entries, because `[護衛成功]` is listed among the
private markers. -/
theorem c8_public_log_excludes_guard_success :
    swith "[護衛成功] Alice への襲撃は護衛により阻止された" "[護衛成功]" = true
  ∧ g8.log = ["[護衛成功] Alice への襲撃は護衛により阻止された"]
  ∧ public_entries g8 = []
  ∧ format_public_log g8 = "" := by
  refine ⟨by decide, rfl, by decide, by decide⟩

/-- Claim C8 (amended): the per-viewer filter shows every guard-success
entry to every viewer, but `format_public_log` excludes every guard-success
entry, since `[護衛成功]` is one of the private markers it strips. -/
theorem c8_guard_success_visibility (entry : String)
    (h : swith entry "[護衛成功]" = true) :
    (∀ viewer : Player, is_visible entry viewer = true)
  ∧ (∀ g : GameState, entry ∉ public_entries g) := by
  constructor
  · intro viewer
    have h' := h
    unfold swith at h'
    rw [List.isPrefixOf_iff_prefix] at h'
    obtain ⟨rest, hrest⟩ := h'
    have e1 : swith entry "[配役]" = false := by
      unfold swith
      rw [← hrest]
      exact gs_not_role rest
    have e2 : swith entry "[占い結果]" = false := by
      unfold swith
      rw [← hrest]
      exact gs_not_divres rest
    have e3 : swith entry "[占い]" = false := by
      unfold swith
      rw [← hrest]
      exact gs_not_div rest
    have e4 : swith entry "[護衛]" = false := by
      unfold swith
      rw [← hrest]
      exact gs_not_guard rest
    have e5 : swith entry "[霊媒結果]" = false := by
      unfold swith
      rw [← hrest]
      exact gs_not_medium rest
    have e6 : swith entry "[人狼仲間]" = false := by
      unfold swith
      rw [← hrest]
      exact gs_not_wolf rest
    simp [is_visible, e1, e2, e3, e4, e5, e6]
  · intro g hmem
    rw [public_entries, List.mem_filter] at hmem
    have hany : privateMarkers.any (fun p => swith entry p) = true :=
      List.any_eq_true.mpr ⟨"[護衛成功]", by decide, h⟩
    rw [hany] at hmem
    simp at hmem

/-- Witness for C8 (amended): the concrete guard-success entry is visible to
the madman viewer yet absent from the public log of `g8`. -/
theorem c8_guard_success_visibility_witness :
    is_visible "[護衛成功] Alice への襲撃は護衛により阻止された"
      { name := "Heidi", role := Role.madman, status := PlayerStatus.alive } = true
  ∧ "[護衛成功] Alice への襲撃は護衛により阻止された" ∉ public_entries g8 :=
  ⟨(c8_guard_success_visibility "[護衛成功] Alice への襲撃は護衛により阻止された"
      (by decide)).1 { name := "Heidi", role := Role.madman, status := PlayerStatus.alive },
   (c8_guard_success_visibility "[護衛成功] Alice への襲撃は護衛により阻止された"
      (by decide)).2 g8⟩

theorem resolve_night_core {env : InteractiveEnv} {g : GameState} {order : List String}
    {hd hg ha : Option String} {g1 : GameState} {dres : Option (String × String × Bool)}
    {g2 : GameState} {gt : Option String} {g3 : GameState} {at' : Option String}
    (h1 : resolveDivineI env g hd = (g1, dres))
    (h2 : resolveGuardI env g1 hg = (g2, gt))
    (h3 : resolveAttackI env g2 ha = (g3, at')) :
    resolve_night env g order hd ha hg = nightCore order dres gt at' g3 := by
  unfold resolve_night nightCore
  dsimp only
  rw [h1]
  dsimp only
  rw [h2]
  dsimp only
  rw [h3]

theorem night_phase_batch_core {prov : String → ActionSource} {g : GameState}
    {g1 : GameState} {dres : Option (String × String × Bool)}
    {g2 : GameState} {at' : Option String}
    (h1 : resolveDivineB prov
      { g.add_log ("--- Night " ++ toString g.day ++ " （夜フェーズ） ---") with
        phase := Phase.night } = (g1, dres))
    (h2 : resolveAttackB prov g1 = (g2, at')) :
    night_phase_batch prov g = nightCoreB dres at' g2 := by
  unfold night_phase_batch nightCoreB
  dsimp only
  rw [h1]
  dsimp only
  rw [h2]

/-- Claim C4: in a night resolution where the guard target equals the attack
target, the target stays alive, a guard-success entry and a no-one-attacked
entry are appended, the roster is unchanged (nobody dies) and the speaking
order is not rotated; otherwise the attack target is killed and the attack
is logged. -/
theorem c4_guard_nullification
    (env : InteractiveEnv) (g : GameState) (order : List String)
    (hd hg ha : Option String) (g1 : GameState) (dres : Option (String × String × Bool))
    (g2 : GameState) (gt : Option String) (g3 : GameState) (t : String)
    (h1 : resolveDivineI env g hd = (g1, dres))
    (h2 : resolveGuardI env g1 hg = (g2, gt))
    (h3 : resolveAttackI env g2 ha = (g3, some t)) :
    (gt = some t →
      (∃ p, (resolve_night env g order hd ha hg).game.find_player t true = some p ∧
        p.is_alive = true)
      ∧ ("[護衛成功] " ++ t ++ " への襲撃は護衛により阻止された") ∈
          (resolve_night env g order hd ha hg).game.log
      ∧ "[襲撃] 今夜は誰も襲撃されなかった" ∈ (resolve_night env g order hd ha hg).game.log
      ∧ (resolve_night env g order hd ha hg).game.players = g.players
      ∧ (resolve_night env g order hd ha hg).order = order)
  ∧ (gt ≠ some t →
      (∃ q, (resolve_night env g order hd ha hg).game.find_player t = some q ∧
        q.is_alive = false)
      ∧ ("[襲撃] " ++ t ++ " が人狼に襲撃された") ∈
          (resolve_night env g order hd ha hg).game.log) := by
  have e1 : g1.players = g.players := by
    have h := resolveDivineI_players env g hd
    rw [h1] at h
    exact h
  have e2 : g2.players = g1.players := by
    have h := resolveGuardI_players env g1 hg
    rw [h2] at h
    exact h
  have e3 : g3.players = g2.players := by
    have h := resolveAttackI_players env g2 ha
    rw [h3] at h
    exact h
  obtain ⟨p, hp⟩ := resolveAttackI_some h3
  have hpprops := find_player_alive_props hp
  rw [resolve_night_core h1 h2 h3]
  constructor
  · intro hgt
    subst hgt
    unfold nightCore
    dsimp only
    rw [if_pos rfl]
    cases dres with
    | none =>
      dsimp only
      refine ⟨⟨p, hp, hpprops.1⟩, ?_, ?_, ?_, rfl⟩
      · simp [GameState.add_log]
      · simp [GameState.add_log]
      · show g3.players = g.players
        rw [e3, e2, e1]
    | some d =>
      obtain ⟨ds, dt, dw⟩ := d
      dsimp only
      refine ⟨⟨p, hp, hpprops.1⟩, ?_, ?_, ?_, rfl⟩
      · simp [GameState.add_log, GameState.add_divine_history]
      · simp [GameState.add_log, GameState.add_divine_history]
      · show g3.players = g.players
        rw [e3, e2, e1]
  · intro hgt
    unfold nightCore
    dsimp only
    rw [if_neg hgt, hp]
    dsimp only
    have hk : p.killed = some { p with status := PlayerStatus.dead } := by
      unfold Player.killed
      simp [hpprops.1]
    rw [hk]
    dsimp only
    obtain ⟨q, hq, hqdead⟩ := find_player_after_kill hp
    cases dres with
    | none =>
      dsimp only
      refine ⟨⟨q, hq, hqdead⟩, ?_⟩
      rw [← hpprops.2.1]
      simp [GameState.add_log]
    | some d =>
      obtain ⟨ds, dt, dw⟩ := d
      dsimp only
      by_cases hn : p.name = ds
      · rw [if_pos hn]
        dsimp only
        refine ⟨⟨q, hq, hqdead⟩, ?_⟩
        rw [← hpprops.2.1]
        simp [GameState.add_log, GameState.add_divine_history]
      · rw [if_neg hn]
        dsimp only
        refine ⟨⟨q, hq, hqdead⟩, ?_⟩
        rw [← hpprops.2.1]
        simp [GameState.add_log, GameState.add_divine_history]

/-- Claim C6: if this night's attack kills the seer who produced this
night's tentative divination, the divination ledger is unchanged by the
resolution; in every other case the successful divination is committed.
Both the step-wise resolution and the batch night phase behave this way. -/
theorem c6_seer_self_invalidation
    (env : InteractiveEnv) (g : GameState) (order : List String)
    (hd hg ha : Option String) (g1 : GameState) (sname tname : String) (isw : Bool)
    (g2 : GameState) (gt : Option String) (g3 : GameState) (at' : Option String)
    (h1 : resolveDivineI env g hd = (g1, some (sname, tname, isw)))
    (h2 : resolveGuardI env g1 hg = (g2, gt))
    (h3 : resolveAttackI env g2 ha = (g3, at')) :
    ((at' = some sname ∧ gt ≠ at') →
      (resolve_night env g order hd ha hg).game.divined_history = g.divined_history)
  ∧ ((at' = none ∨ at' = gt ∨ (∀ s, at' = some s → s ≠ sname)) →
      (resolve_night env g order hd ha hg).game.divined_history =
        g.divined_history ++ [(sname, tname)])
  ∧ (∀ (prov : String → ActionSource) (gB gB1 gB2 : GameState) (sB tB : String)
      (wB : Bool) (atB : Option String),
      resolveDivineB prov
        { gB.add_log ("--- Night " ++ toString gB.day ++ " （夜フェーズ） ---") with
          phase := Phase.night } = (gB1, some (sB, tB, wB)) →
      resolveAttackB prov gB1 = (gB2, atB) →
      ((atB = some sB →
        (night_phase_batch prov gB).divined_history = gB.divined_history)
      ∧ ((atB = none ∨ (∀ s, atB = some s → s ≠ sB)) →
        (night_phase_batch prov gB).divined_history =
          gB.divined_history ++ [(sB, tB)]))) := by
  have d1 : g1.divined_history = g.divined_history := by
    have h := resolveDivineI_divined env g hd
    rw [h1] at h
    exact h
  have d2 : g2.divined_history = g1.divined_history := by
    have h := resolveGuardI_divined env g1 hg
    rw [h2] at h
    exact h
  have d3 : g3.divined_history = g2.divined_history := by
    have h := resolveAttackI_divined env g2 ha
    rw [h3] at h
    exact h
  refine ⟨?_, ?_, ?_⟩
  · rintro ⟨hat, hgt⟩
    subst hat
    rw [resolve_night_core h1 h2 h3]
    unfold nightCore
    dsimp only
    rw [if_neg hgt]
    obtain ⟨p, hp⟩ := resolveAttackI_some h3
    have hpp := find_player_alive_props hp
    rw [hp]
    dsimp only
    have hk : p.killed = some { p with status := PlayerStatus.dead } := by
      unfold Player.killed
      simp [hpp.1]
    rw [hk]
    dsimp only
    rw [if_pos hpp.2.1]
    dsimp only
    simp [GameState.add_log, GameState.replace_player, d3, d2, d1]
  · intro hcase
    rw [resolve_night_core h1 h2 h3]
    unfold nightCore
    dsimp only
    cases hat : at' with
    | none =>
      dsimp only
      simp [GameState.add_divine_history, d3, d2, d1]
    | some s =>
      subst hat
      dsimp only
      by_cases hgt : gt = some s
      · rw [if_pos hgt]
        dsimp only
        simp [GameState.add_log, GameState.add_divine_history, d3, d2, d1]
      · rw [if_neg hgt]
        have hsn : s ≠ sname := by
          rcases hcase with h | h | h
          · simp at h
          · exact absurd h.symm hgt
          · exact h s rfl
        obtain ⟨p, hp⟩ := resolveAttackI_some h3
        have hpp := find_player_alive_props hp
        rw [hp]
        dsimp only
        have hk : p.killed = some { p with status := PlayerStatus.dead } := by
          unfold Player.killed
          simp [hpp.1]
        rw [hk]
        dsimp only
        rw [hpp.2.1, if_neg hsn]
        dsimp only
        simp [GameState.add_log, GameState.replace_player, GameState.add_divine_history,
          d3, d2, d1]
  · intro prov gB gB1 gB2 sB tB wB atB hb1 hb2
    have db1 : gB1.divined_history = gB.divined_history := by
      have h := resolveDivineB_divined prov
        { gB.add_log ("--- Night " ++ toString gB.day ++ " （夜フェーズ） ---") with
          phase := Phase.night }
      rw [hb1] at h
      exact h
    obtain ⟨hg2eq, hex⟩ : gB2 = gB1 ∧ True := by
      constructor
      · have h := resolveAttackB_fst prov gB1
        rw [hb2] at h
        exact h
      · trivial
    subst hg2eq
    rw [night_phase_batch_core hb1 hb2]
    constructor
    · intro hat
      subst hat
      unfold nightCoreB
      dsimp only
      obtain ⟨_, p, hp⟩ := resolveAttackB_some hb2
      have hpp := find_player_alive_props hp
      rw [hp]
      dsimp only
      have hk : p.killed = some { p with status := PlayerStatus.dead } := by
        unfold Player.killed
        simp [hpp.1]
      rw [hk]
      dsimp only
      rw [if_pos hpp.2.1]
      dsimp only
      simp [GameState.add_log, GameState.replace_player, db1]
    · intro hcase
      unfold nightCoreB
      dsimp only
      cases hat : atB with
      | none =>
        dsimp only
        simp [GameState.add_divine_history, db1]
      | some s =>
        subst hat
        dsimp only
        have hsn : s ≠ sB := by
          rcases hcase with h | h
          · simp at h
          · exact h s rfl
        obtain ⟨_, p, hp⟩ := resolveAttackB_some hb2
        have hpp := find_player_alive_props hp
        rw [hp]
        dsimp only
        have hk : p.killed = some { p with status := PlayerStatus.dead } := by
          unfold Player.killed
          simp [hpp.1]
        rw [hk]
        dsimp only
        rw [hpp.2.1, if_neg hsn]
        dsimp only
        simp [GameState.add_log, GameState.replace_player, GameState.add_divine_history, db1]

/-- Witness for C4: guard Carol + attack Carol keeps Carol alive with an
unrotated order; guard Wolf + attack Carol kills Carol. -/
theorem c4_guard_nullification_witness :
    (∃ p, (resolve_night envC4 gC4 ["Ken", "Wolf", "Carol"] none none none).game.find_player
        "Carol" true = some p ∧ p.is_alive = true)
  ∧ (resolve_night envC4 gC4 ["Ken", "Wolf", "Carol"] none none none).order =
      ["Ken", "Wolf", "Carol"]
  ∧ (∃ q, (resolve_night envC4b gC4 ["Ken", "Wolf", "Carol"] none none none).game.find_player
        "Carol" = some q ∧ q.is_alive = false) := by
  have h := c4_guard_nullification envC4 gC4 ["Ken", "Wolf", "Carol"] none none none
    (resolveDivineI envC4 gC4 none).1 none
    (resolveGuardI envC4 (resolveDivineI envC4 gC4 none).1 none).1 (some "Carol")
    (resolveAttackI envC4 (resolveGuardI envC4 (resolveDivineI envC4 gC4 none).1 none).1 none).1
    "Carol" rfl rfl rfl
  have hb := c4_guard_nullification envC4b gC4 ["Ken", "Wolf", "Carol"] none none none
    (resolveDivineI envC4b gC4 none).1 none
    (resolveGuardI envC4b (resolveDivineI envC4b gC4 none).1 none).1 (some "Wolf")
    (resolveAttackI envC4b (resolveGuardI envC4b (resolveDivineI envC4b gC4 none).1 none).1 none).1
    "Carol" rfl rfl rfl
  exact ⟨(h.1 rfl).1, (h.1 rfl).2.2.2.2, (hb.2 (by decide)).1⟩

/-- Witness for C6: attacking the seer Alice discards her tentative
divination (both engines); attacking Carol instead commits it. -/
theorem c6_seer_self_invalidation_witness :
    (resolve_night envC6 gC6 ["Alice", "Bob", "Carol"] none none none).game.divined_history = []
  ∧ (resolve_night envC6b gC6 ["Alice", "Bob", "Carol"] none none none).game.divined_history =
      [("Alice", "Bob")]
  ∧ (night_phase_batch (fun _ => srcC6) gC6).divined_history = [] := by
  have h := c6_seer_self_invalidation envC6 gC6 ["Alice", "Bob", "Carol"] none none none
    (resolveDivineI envC6 gC6 none).1 "Alice" "Bob" true
    (resolveGuardI envC6 (resolveDivineI envC6 gC6 none).1 none).1 none
    (resolveAttackI envC6 (resolveGuardI envC6 (resolveDivineI envC6 gC6 none).1 none).1 none).1
    (some "Alice") rfl rfl rfl
  have hc := c6_seer_self_invalidation envC6b gC6 ["Alice", "Bob", "Carol"] none none none
    (resolveDivineI envC6b gC6 none).1 "Alice" "Bob" true
    (resolveGuardI envC6b (resolveDivineI envC6b gC6 none).1 none).1 none
    (resolveAttackI envC6b (resolveGuardI envC6b (resolveDivineI envC6b gC6 none).1 none).1 none).1
    (some "Carol") rfl rfl rfl
  refine ⟨?_, ?_, ?_⟩
  · exact h.1 ⟨rfl, by decide⟩
  · exact hc.2.1 (Or.inr (Or.inr (fun s hs => by
      injection hs with h'
      subst h'
      decide)))
  · exact (h.2.2 (fun _ => srcC6) gC6
      (resolveDivineB (fun _ => srcC6)
        { gC6.add_log ("--- Night " ++ toString gC6.day ++ " （夜フェーズ） ---") with
          phase := Phase.night }).1
      (resolveAttackB (fun _ => srcC6)
        (resolveDivineB (fun _ => srcC6)
          { gC6.add_log ("--- Night " ++ toString gC6.day ++ " （夜フェーズ） ---") with
            phase := Phase.night }).1).1
      "Alice" "Bob" true (some "Alice") rfl rfl).1 rfl
